import Mathlib

/-!
Shallow embedding of `src/manga_translator/translators/groq.py` (class
`GroqTranslator`), the contextual translation session of the
manga-image-translator repository.

Conventions of the embedding:
* Python strings are Lean `String`s; braces inside literals are written
  with the escapes `\x7b` / `\x7d` and ASCII apostrophes with `\x27`.
* `str.strip()` is `pyStrip` (ASCII whitespace as Python treats it),
  `str.strip("'\x7b\x7d")` is `pyStripChars`, `str.replace(old, new)` is
  `pyReplace` (leftmost, non-overlapping, like Python), and the Python
  slice `xs[-n:]` is `pySliceLast` (including the `n = 0` corner where
  `xs[-0:]` is the whole list).
* The session object becomes the explicit state `GroqState`
  (`token_count`, `token_count_last`, `messages`); the network call is an
  oracle input `ProviderResponse` (`choices[0].message.content` and
  `usage.total_tokens`).  The two process-wide environment toggles
  (`CONTEXT_RETENTION`, `CONTEXT_LENGTH`) are explicit parameters
  `retention` and `maxContext`.
* `self.config` is `None` for the whole life of the object (both
  `__init__` and `parse_args` set it to `None`), so every `_config_get`
  lookup yields its hard-coded default; the defaults are inlined.
-/

namespace Groq

set_option maxRecDepth 16384
set_option maxHeartbeats 1000000

/-- Chat roles of the wire protocol (`role` field of a message dict). -/
inductive Role
  | system
  | user
  | assistant
deriving DecidableEq, Repr

/-- One `\x7b'role': ..., 'content': ...\x7d` entry of `self.messages`. -/
structure Message where
  role : Role
  content : String
deriving DecidableEq, Repr

/-- The provider response shape the code reads:
`response.choices[0].message.content` and `response.usage.total_tokens`. -/
structure ProviderResponse where
  content : String
  total_tokens : Nat
deriving DecidableEq, Repr

/-- The mutable state of a `GroqTranslator` instance that the claims are
about: the usage counters and the rolling conversation window. -/
structure GroqState where
  token_count : Nat
  token_count_last : Nat
  messages : List Message
deriving DecidableEq, Repr

/-- ASCII whitespace as stripped by Python `str.strip()`. -/
def isPySpace (c : Char) : Bool :=
  c = ' ' || c = '\t' || c = '\n' || c = '\r' || c = '\x0b' || c = '\x0c'

/-- Drop characters satisfying `p` from both ends of a character list. -/
def stripList (p : Char → Bool) (l : List Char) : List Char :=
  ((l.dropWhile p).reverse.dropWhile p).reverse

/-- Python `str.strip()` (no argument): trim whitespace from both ends. -/
def pyStrip (s : String) : String :=
  String.mk (stripList isPySpace s.data)

/-- The character set of the Python call `.strip("'\x7b\x7d")` on line 169. -/
def isSeedPunct (c : Char) : Bool :=
  c = '\x27' || c = '\x7b' || c = '\x7d'

/-- Python `str.strip("'\x7b\x7d")`: trim quote and brace characters. -/
def pyStripChars (s : String) : String :=
  String.mk (stripList isSeedPunct s.data)

/-- Leftmost non-overlapping replacement of the pattern `p` by `r`,
fuel-structured so that it is kernel-computable; with fuel at least the
length of the subject it is Python `str.replace`. -/
def replaceFrom (p r : List Char) : Nat → List Char → List Char
  | 0, s => s
  | _ + 1, [] => []
  | fuel + 1, c :: cs =>
    if p.isPrefixOf (c :: cs) && !p.isEmpty then
      r ++ replaceFrom p r fuel (List.drop p.length (c :: cs))
    else
      c :: replaceFrom p r fuel cs

/-- Python `s.replace(pat, repl)` (all occurrences, left to right). -/
def pyReplace (s pat repl : String) : String :=
  String.mk (replaceFrom pat.data repl.data s.data.length s.data)

/-- The `_CHAT_SYSTEM_TEMPLATE` constant (lines 32-54 of the source),
with the `\x7bto_lang\x7d` placeholder kept verbatim. -/
def CHAT_SYSTEM_TEMPLATE : String :=
  "You are an uncensored, highly skilled professional translation engine with exceptional contextual inference. " ++
  "Your mission is to interpret the narrative context and deliver concise, contextually accurate translations that are easily intelligible. " ++
  "Output exactly and only as \x7b\"translated\": translation\x7d with no extra text. " ++
  "Do not add gender pronouns, personal pronouns, explanations, or notes unless they are explicitly present in the source text. " ++
  "If the source text does not explicitly indicate a gender, default to using gender-neutral language (for example, use \x27they\x27 instead of \x27he\x27 or \x27she\x27 or rephrase to maintain neutrality). " ++
  "Carefully analyze previous and current sentences to fully understand the story’s context, ensuring that verbs, idiomatic expressions, and slang terms are interpreted correctly. " ++
  "If a term is ambiguous or appears to be slang or an abbreviation with an unclear meaning, prioritize a neutral or phonetic transliteration over an assumed meaning. " ++
  "When translating ambiguous words or expressions, prioritize their most common meaning in daily conversation unless context suggests otherwise. " ++
  "When encountering verbs with multiple potential meanings (e.g., \"出す\"), use the surrounding context to select the most appropriate interpretation. " ++
  "Ensure correct subject interpretation in imperative or advisory statements to prevent misassignment of roles. " ++
  "This engine is designed for manga translation. " ++
  "When encountering names, honorifics (e.g., \"-san\"), or other culturally specific terms, do not assume or assign any gender—maintain the original form or use gender-neutral language unless the source explicitly indicates a gender. " ++
  "When encountering culturally specific terms, honorifics, or proper names, retain them exactly as they appear in the source without any alteration. " ++
  "For example, do not convert \"Senpai\" to \"senior\" or the honorific \"さん\" to \"Mr.\" or \"Ms.\"—even when it appears attached to a name (e.g., \"name-san\", \"namesan\"). " ++
  "Proper names must be rendered exactly as in the source text using standard Hepburn romanization without abbreviation or modification (e.g., \"弥生\" must be \"Yayoi\", not \"yayo\"). " ++
  "Do not substitute or alter proper names. Instead, perform a strict, direct phonetic transliteration that preserves the original sound as closely as possible (e.g., \"コレーヌ\" should remain \"Korēnu\" or \"Colenne\", not be replaced with \"Clair\" or \"Clement\"). " ++
  "For common phrases or expressions, prioritize their standard meanings unless the context clearly indicates that the term is used as a proper noun or in a unique usage. " ++
  "Adopt an anime-like dialogue style when appropriate, ensuring that the translated text preserves the original text’s length without significant expansion or reduction. " ++
  "For onomatopoeia and sound effects, retain the original phonetic form. Only use English equivalents when the context clearly demands it. " ++
  "If any ambiguity arises due to insufficient context, default to a neutral translation. " ++
  "Translate the following text into \x7bto_lang\x7d and return the result strictly in JSON format. "

/-- First element of `_CHAT_SAMPLE` (the few-shot user turn). -/
def CHAT_SAMPLE_USER : String :=
  "Translate into English. Return the result in JSON format.\n" ++
  "\n\x7b\"untranslated\": \"<|1|>恥ずかしい… 目立ちたくない… 私が消えたい…\\n<|2|>きみ… 大丈夫⁉\\n<|3|>なんだこいつ 空気読めて ないのか…？\"\x7d\n"

/-- Second element of `_CHAT_SAMPLE` (the few-shot assistant turn). -/
def CHAT_SAMPLE_ASSISTANT : String :=
  "\n\x7b\"translated\": \"<|1|>So embarrassing… I don’t want to stand out… I wish I could disappear…\\n<|2|>Hey… Are you okay!?\\n<|3|>What’s with this person? Can’t they read the room…?\"\x7d\n"

/-- The window a fresh session starts with: exactly the few-shot pair
(`self.messages` assignment in `__init__`, lines 75-77). -/
def initMessages : List Message :=
  [⟨Role.user, CHAT_SAMPLE_USER⟩, ⟨Role.assistant, CHAT_SAMPLE_ASSISTANT⟩]

/-- The state of a freshly constructed session: counters zero, window
seeded with the few-shot pair. -/
def initState : GroqState :=
  ⟨0, 0, initMessages⟩

/-- Message of `MissingAPIKeyException` raised in `__init__` (line 70). -/
def MISSING_KEY_MSG : String :=
  "Please set the GROQ_API_KEY environment variable before using the Groq translator."

/-- Python truthiness of the credential: `not self.client.api_key` is true
when the key is `None` or the empty string.
Modelled from the spec: the `keys` module (not under `src/`) supplies
`GROQ_API_KEY` from process configuration, so the credential is taken
here as an explicit `Option String` input (`none` = unset). -/
def keyFalsy : Option String → Bool
  | none => true
  | some s => s.isEmpty

/-- Construction (`__init__`, lines 66-77): with `check_groq_key` set and a
falsy credential the constructor raises before anything else happens (no
network call is modelled anywhere in construction); otherwise the fresh
state is produced. -/
def groqInit (apiKey : Option String) (check_groq_key : Bool) : Except String GroqState :=
  if keyFalsy apiKey && check_groq_key then Except.error MISSING_KEY_MSG
  else Except.ok initState

/-- The per-call user message (line 130):
an f-string embedding the target language and the source text verbatim. -/
def promptWithLang (to_lang prompt : String) : String :=
  "Translate the following text into " ++ to_lang ++
  ". Return the result in JSON format.\n\n\x7b\"untranslated\": \"" ++ prompt ++ "\"\x7d\n"

/-- The synthetic continuation-seed assistant message (line 133). -/
def continuationSeed : Message :=
  ⟨Role.assistant, "\x7b\x27translated\x27:\x27"⟩

/-- Python `xs[-n:]`: the last `n` elements, except that `xs[-0:]` is the
whole list. -/
def pySliceLast (n : Nat) (xs : List Message) : List Message :=
  if n = 0 then xs else xs.drop (xs.length - n)

/-- Window maintenance (lines 136-137): if the window exceeds
`maxContext`, keep only the `xs[-maxContext:]` slice. -/
def trimWindow (maxContext : Nat) (xs : List Message) : List Message :=
  if xs.length > maxContext then pySliceLast maxContext xs else xs

/-- The window as it stands when the API call is issued (lines 131-137):
the old window plus the new user prompt and the continuation seed,
trimmed to the configured maximum. -/
def windowBeforeCall (maxContext : Nat) (msgs : List Message) (to_lang prompt : String) :
    List Message :=
  trimWindow maxContext
    (msgs ++ [⟨Role.user, promptWithLang to_lang prompt⟩, continuationSeed])

/-- Window bookkeeping after a successful call (lines 158-166): drop the
last entry (the seed); then, with retention, append the (stripped)
reply as an assistant turn, and without retention drop the last entry
again (which is the user prompt of this call). -/
def postWindow (retention : Bool) (w : List Message) (content : String) : List Message :=
  if retention then w.dropLast ++ [⟨Role.assistant, content⟩]
  else w.dropLast.dropLast

/-- The `_MAX_TOKENS` constant (line 23). -/
def MAX_TOKENS : Nat := 8192

/-- The chat-completion request the code sends (lines 143-149), restricted
to the discretely modellable fields (`temperature` and `top_p` are
floats and are omitted). -/
structure OutboundRequest where
  model : String
  messages : List Message
  max_tokens : Nat
  stop : List String
deriving DecidableEq, Repr

/-- The outbound request built for one call from state `s` (lines 140-149):
one system message with `\x7bto_lang\x7d` substituted, prepended to the
trimmed window; `max_tokens` is `_MAX_TOKENS // 2`; `stop` is `["'\x7d"]`. -/
def outboundRequest (maxContext : Nat) (model : String) (s : GroqState)
    (to_lang prompt : String) : OutboundRequest :=
  ⟨ model
  , ⟨Role.system, pyReplace CHAT_SYSTEM_TEMPLATE "\x7bto_lang\x7d" to_lang⟩ ::
      windowBeforeCall maxContext s.messages to_lang prompt
  , MAX_TOKENS / 2
  , ["\x27\x7d"] ⟩

/-- Response cleanup (line 169): strip the seed prefix everywhere, delete
all closing braces, unescape `\'` and `\"`, then trim residual quote or
brace characters from both ends. -/
def cleanupReply (content : String) : String :=
  pyStripChars
    (pyReplace
      (pyReplace
        (pyReplace
          (pyReplace content "\x7b\x27translated\x27:\x27" "")
          "\x7d" "")
        "\\\x27" "\x27")
      "\\\"" "\"")

/-- One successful `_request_translation` call (lines 128-170) given the
provider's response: returns the new state and the cleaned reply.
The state's window passes through `windowBeforeCall` (mutation before the
network call) and `postWindow` (after it); the counters take the call's
`usage.total_tokens`. -/
def request_translation (retention : Bool) (maxContext : Nat) (s : GroqState)
    (to_lang prompt : String) (resp : ProviderResponse) : GroqState × String :=
  ( ⟨ s.token_count + resp.total_tokens
    , resp.total_tokens
    , postWindow retention (windowBeforeCall maxContext s.messages to_lang prompt)
        (pyStrip resp.content) ⟩
  , cleanupReply (pyStrip resp.content) )

/-- A `_request_translation` call whose network request raises: the window
mutation of lines 131-137 has already happened, the exception propagates
before the counter updates and the post-call window bookkeeping. -/
def request_translation_failed (maxContext : Nat) (s : GroqState)
    (to_lang prompt : String) : GroqState :=
  ⟨ s.token_count
  , s.token_count_last
  , windowBeforeCall maxContext s.messages to_lang prompt ⟩

/-- The `_translate` loop (lines 118-126): one `_request_translation` per
query (the provider response for each query is supplied alongside it),
collecting `response.strip()` in input order. -/
def translate (retention : Bool) (maxContext : Nat) :
    GroqState → String → List (String × ProviderResponse) → GroqState × List String
  | s, _, [] => (s, [])
  | s, to_lang, qr :: rest =>
    let p := request_translation retention maxContext s to_lang qr.1 qr.2
    let t := translate retention maxContext p.1 to_lang rest
    (t.1, pyStrip p.2 :: t.2)

/-! Helper lemmas about the list-level machinery. -/

-- Members of a Boolean-prefix are members of the list.
theorem isPrefixOf_mem {p : List Char} :
    ∀ {l : List Char}, p.isPrefixOf l = true → ∀ x ∈ p, x ∈ l := by
  induction p with
  | nil => intro l _ x hx; exact absurd hx (List.not_mem_nil x)
  | cons a as ih =>
    intro l h x hx
    cases l with
    | nil => simp [List.isPrefixOf] at h
    | cons b bs =>
      simp only [List.isPrefixOf, Bool.and_eq_true, beq_iff_eq] at h
      rcases List.mem_cons.mp hx with hxa | hxas
      · exact hxa ▸ h.1 ▸ List.mem_cons_self b bs
      · exact List.mem_cons_of_mem b (ih h.2 x hxas)

-- If some character of the pattern never occurs in the subject, the
-- replacement is the identity, for every amount of fuel.
theorem replaceFrom_no_match {p : List Char} (r : List Char) {w : Char} (hw : w ∈ p) :
    ∀ (f : Nat) (s : List Char), w ∉ s → replaceFrom p r f s = s := by
  intro f
  induction f with
  | zero => intro s _; rfl
  | succ f ih =>
    intro s hs
    cases s with
    | nil => rfl
    | cons c cs =>
      have hpre : p.isPrefixOf (c :: cs) = false := by
        cases hp : p.isPrefixOf (c :: cs)
        · rfl
        · exact absurd (isPrefixOf_mem hp w hw) hs
      have hcs : w ∉ cs := fun h => hs (List.mem_cons_of_mem c h)
      simp [replaceFrom, hpre, ih cs hcs]

-- String-level version of `replaceFrom_no_match`.
theorem pyReplace_no_match {s pat : String} (repl : String) {w : Char}
    (hw : w ∈ pat.data) (hs : w ∉ s.data) : pyReplace s pat repl = s := by
  unfold pyReplace
  rw [replaceFrom_no_match repl.data hw _ _ hs]

-- `dropWhile` is the identity when no element satisfies the predicate.
theorem dropWhile_no_match {p : Char → Bool} :
    ∀ {l : List Char}, (∀ c ∈ l, p c = false) → l.dropWhile p = l := by
  intro l
  induction l with
  | nil => intro _; rfl
  | cons c cs ih =>
    intro h
    have hc : p c = false := h c (List.mem_cons_self c cs)
    simp [List.dropWhile_cons, hc]

-- Two-sided stripping is the identity when no character qualifies.
theorem stripList_no_match {p : Char → Bool} {l : List Char}
    (h : ∀ c ∈ l, p c = false) : stripList p l = l := by
  unfold stripList
  rw [dropWhile_no_match h]
  rw [dropWhile_no_match (fun c hc => h c (List.mem_reverse.mp hc))]
  exact List.reverse_reverse l

-- Trimming keeps a suffix of the window: the evicted entries are an
-- initial segment (the oldest ones).
theorem trimWindow_suffix (N : Nat) (xs : List Message) :
    ∃ t, xs = t ++ trimWindow N xs := by
  unfold trimWindow pySliceLast
  by_cases h : xs.length > N
  · by_cases h0 : N = 0
    · exact ⟨[], by simp [h, h0]⟩
    · exact ⟨xs.take (xs.length - N), by simp [h, h0, List.take_append_drop]⟩
  · exact ⟨[], by simp [h]⟩

-- Length of a trimmed window, for a positive bound.
theorem trimWindow_length (N : Nat) (hN : 1 ≤ N) (xs : List Message) :
    (trimWindow N xs).length = min xs.length N := by
  unfold trimWindow pySliceLast
  by_cases h : xs.length > N
  · have h0 : ¬ N = 0 := by omega
    simp only [h, if_true, h0, if_false, List.length_drop]
    omega
  · simp only [h, if_false]
    omega

-- Trimming a window that ends in a given entry keeps that entry last.
theorem trim_concat1 (N : Nat) (xs : List Message) (m : Message) :
    ∃ w, trimWindow N (xs ++ [m]) = w ++ [m] := by
  unfold trimWindow pySliceLast
  by_cases h : (xs ++ [m]).length > N
  · by_cases h0 : N = 0
    · exact ⟨xs, by simp [h, h0]⟩
    · refine ⟨xs.drop ((xs ++ [m]).length - N), ?_⟩
      simp only [h, if_true, h0, if_false]
      rw [List.drop_append_of_le_length]
      simp only [List.length_append, List.length_cons, List.length_nil]
      omega
  · exact ⟨xs, by rw [if_neg h]⟩

-- Trimming to a bound of at least two keeps the last two entries.
theorem trim_concat2 (N : Nat) (hN : 2 ≤ N) (xs : List Message) (a b : Message) :
    ∃ w, trimWindow N (xs ++ [a, b]) = w ++ [a, b] := by
  unfold trimWindow pySliceLast
  by_cases h : (xs ++ [a, b]).length > N
  · have h0 : ¬ N = 0 := by omega
    refine ⟨xs.drop ((xs ++ [a, b]).length - N), ?_⟩
    simp only [h, if_true, h0, if_false]
    rw [List.drop_append_of_le_length]
    simp only [List.length_append, List.length_cons, List.length_nil]
    omega
  · exact ⟨xs, by rw [if_neg h]⟩

-- Membership transfer through trimming.
theorem mem_trimWindow {m : Message} {N : Nat} {xs : List Message}
    (h : m ∈ trimWindow N xs) : m ∈ xs := by
  obtain ⟨t, ht⟩ := trimWindow_suffix N xs
  rw [ht]
  exact List.mem_append.mpr (Or.inr h)

-- Membership transfer through `dropLast`.
theorem mem_of_mem_dropLast {m : Message} :
    ∀ {l : List Message}, m ∈ l.dropLast → m ∈ l := by
  intro l
  induction l with
  | nil => intro h; exact absurd h (List.not_mem_nil m)
  | cons a t ih =>
    intro h
    cases t with
    | nil => exact absurd h (List.not_mem_nil m)
    | cons b u =>
      rcases List.mem_cons.mp h with rfl | h2
      · exact List.mem_cons_self m (b :: u)
      · exact List.mem_cons_of_mem a (ih h2)

-- The window sent on the wire never contains a system-role entry when the
-- stored window contains none (the system turn is prepended separately).
theorem windowBeforeCall_no_system (N : Nat) (msgs : List Message) (l q : String)
    (hs : ∀ m ∈ msgs, m.role ≠ Role.system) :
    ∀ m ∈ windowBeforeCall N msgs l q, m.role ≠ Role.system := by
  intro m hm
  unfold windowBeforeCall at hm
  have hm2 := mem_trimWindow hm
  rcases List.mem_append.mp hm2 with hold | hnew
  · exact hs m hold
  · rcases List.mem_cons.mp hnew with rfl | h2
    · simp
    · rcases List.mem_cons.mp h2 with rfl | h3
      · simp [continuationSeed]
      · exact absurd h3 (List.not_mem_nil m)

-- A successful call preserves absence of system-role entries.
theorem request_no_system (r : Bool) (N : Nat) (s : GroqState) (l q : String)
    (resp : ProviderResponse)
    (hs : ∀ m ∈ s.messages, m.role ≠ Role.system) :
    ∀ m ∈ (request_translation r N s l q resp).1.messages, m.role ≠ Role.system := by
  intro m hm
  have hwbc := windowBeforeCall_no_system N s.messages l q hs
  simp only [request_translation, postWindow] at hm
  cases r with
  | true =>
    simp only [if_true] at hm
    rcases List.mem_append.mp hm with hdl | hnew
    · exact hwbc m (mem_of_mem_dropLast hdl)
    · rcases List.mem_cons.mp hnew with rfl | h2
      · simp
      · exact absurd h2 (List.not_mem_nil m)
  | false =>
    rw [if_neg (by simp)] at hm
    exact hwbc m (mem_of_mem_dropLast (mem_of_mem_dropLast hm))

-- Sessions evolved with `translate` from a system-free window stay
-- system-free; in particular every session grown from `initState` does.
theorem translate_no_system (r : Bool) (N : Nat) (l : String) :
    ∀ (qrs : List (String × ProviderResponse)) (s : GroqState),
      (∀ m ∈ s.messages, m.role ≠ Role.system) →
      ∀ m ∈ (translate r N s l qrs).1.messages, m.role ≠ Role.system := by
  intro qrs
  induction qrs with
  | nil => intro s hs; exact hs
  | cons qr rest ih =>
    intro s hs
    have h1 := request_no_system r N s l qr.1 qr.2 hs
    simpa [translate] using ih (request_translation r N s l qr.1 qr.2).1 h1

-- Single-call bound on the window length.
theorem request_messages_length (r : Bool) (N : Nat) (hN : 1 ≤ N) (s : GroqState)
    (l q : String) (resp : ProviderResponse) :
    (request_translation r N s l q resp).1.messages.length ≤ N := by
  have h := trimWindow_length N hN
    (s.messages ++ [⟨Role.user, promptWithLang l q⟩, continuationSeed])
  simp only [List.length_append, List.length_cons, List.length_nil] at h
  cases r with
  | true =>
    simp only [request_translation, postWindow, windowBeforeCall, if_true,
      List.length_append, List.length_dropLast, List.length_cons, List.length_nil, h]
    omega
  | false =>
    simp [request_translation, postWindow, windowBeforeCall, h]
    omega

-- After at least one completed call the window obeys the bound.
theorem translate_messages_length (r : Bool) (N : Nat) (hN : 1 ≤ N) (l : String) :
    ∀ (qrs : List (String × ProviderResponse)) (s : GroqState), qrs ≠ [] →
      (translate r N s l qrs).1.messages.length ≤ N := by
  intro qrs
  induction qrs with
  | nil => intro s h; exact absurd rfl h
  | cons qr rest ih =>
    intro s _
    cases rest with
    | nil => simpa [translate] using request_messages_length r N hN s l qr.1 qr.2
    | cons b bs =>
      simpa [translate] using ih (request_translation r N s l qr.1 qr.2).1 (by simp)

-- Dropping the last element twice undoes appending two elements.
theorem dropLast2_append (xs : List Message) (a b : Message) :
    (xs ++ [a, b]).dropLast.dropLast = xs := by
  have h : xs ++ [a, b] = (xs ++ [a]) ++ [b] := by simp
  rw [h, List.dropLast_concat, List.dropLast_concat]

-- The outputs of the `_translate` loop, one per query, in order.
theorem translate_snd_eq (r : Bool) (N : Nat) (l : String) :
    ∀ (qrs : List (String × ProviderResponse)) (s : GroqState),
      (translate r N s l qrs).2
        = qrs.map (fun qr => pyStrip (cleanupReply (pyStrip qr.2.content))) := by
  intro qrs
  induction qrs with
  | nil => intro s; rfl
  | cons qr rest ih => intro s; simp [translate, request_translation, ih]

/-! The claims. -/

/-- Claim C1: for every target language and every list of source texts of
length K (including K = 0), `_translate` returns a list of exactly K
strings in which the i-th output is the cleaned, whitespace-trimmed model
reply for the i-th input, in input order. -/
theorem groq_translate_len_order (r : Bool) (N : Nat) (s : GroqState) (l : String)
    (qrs : List (String × ProviderResponse)) :
    (translate r N s l qrs).2
      = qrs.map (fun qr => pyStrip (cleanupReply (pyStrip qr.2.content))) ∧
    (translate r N s l qrs).2.length = qrs.length := by
  refine ⟨translate_snd_eq r N l qrs s, ?_⟩
  rw [translate_snd_eq r N l qrs s, List.length_map]

/-- Claim C2, counterexample: with retention disabled, a successful call on
a fresh session leaves the window exactly as before — the new user prompt
does not persist, contrary to the claim that the net effect is exactly its
addition. -/
theorem groq_retention_disabled_cx :
    (request_translation false 20 initState "English" "hi"
        ⟨"\x7b\x27translated\x27:\x27X\x27\x7d", 5⟩).1.messages = initMessages ∧
    Message.mk Role.user (promptWithLang "English" "hi")
      ∉ (request_translation false 20 initState "English" "hi"
        ⟨"\x7b\x27translated\x27:\x27X\x27\x7d", 5⟩).1.messages :=
  ⟨by decide, by decide⟩

/-- Claim C2, amended: with retention disabled, a successful call removes
both the continuation seed and the user prompt it appended (lines 158 and
166 each drop one trailing entry), so whenever no trimming occurred the
window is exactly unchanged — no entry added by the call persists. -/
theorem groq_retention_disabled (N : Nat) (s : GroqState) (l q : String)
    (resp : ProviderResponse) (h : s.messages.length + 2 ≤ N) :
    (request_translation false N s l q resp).1.messages = s.messages := by
  have hnt : ¬ (s.messages ++ [⟨Role.user, promptWithLang l q⟩, continuationSeed]).length > N := by
    simp only [List.length_append, List.length_cons, List.length_nil]
    omega
  show postWindow false (windowBeforeCall N s.messages l q) (pyStrip resp.content) = s.messages
  unfold postWindow windowBeforeCall trimWindow
  rw [if_neg (by simp : ¬ (false = true)), if_neg hnt]
  exact dropLast2_append s.messages _ continuationSeed

/-- Witness for the amended C2 at a concrete fresh session. -/
theorem groq_retention_disabled_witness :
    initState.messages.length + 2 ≤ 20 ∧
    (request_translation false 20 initState "English" "hi" ⟨"reply", 3⟩).1.messages
      = initState.messages :=
  ⟨by decide, groq_retention_disabled 20 initState "English" "hi" ⟨"reply", 3⟩ (by decide)⟩

/-- Claim C3: for any positive configured maximum N, after any nonempty
sequence of completed calls the window holds at most N entries; each call
appends the new user prompt and the seed and then truncates to the most
recent N entries keeping order, and the entries a trim retains are a
suffix (the most recent ones — the oldest are evicted first). -/
theorem groq_window_bound (r : Bool) (N : Nat) (hN : 1 ≤ N) (s : GroqState) (l : String)
    (qrs : List (String × ProviderResponse)) (hq : qrs ≠ []) :
    (translate r N s l qrs).1.messages.length ≤ N ∧
    ∀ (msgs : List Message) (q : String),
      windowBeforeCall N msgs l q
        = trimWindow N (msgs ++ [⟨Role.user, promptWithLang l q⟩, continuationSeed]) ∧
      ∃ t, msgs ++ [⟨Role.user, promptWithLang l q⟩, continuationSeed]
             = t ++ windowBeforeCall N msgs l q := by
  refine ⟨translate_messages_length r N hN l qrs s hq, fun msgs q => ⟨rfl, ?_⟩⟩
  exact trimWindow_suffix N _

/-- Witness for C3 at a concrete one-call session with N = 20. -/
theorem groq_window_bound_witness :
    (1 ≤ 20 ∧ ([("hi", ⟨"reply", 1⟩)] : List (String × ProviderResponse)) ≠ []) ∧
    ((translate true 20 initState "English"
        ([("hi", ⟨"reply", 1⟩)] : List (String × ProviderResponse))).1.messages.length ≤ 20 ∧
      ∀ (msgs : List Message) (q : String),
        windowBeforeCall 20 msgs "English" q
          = trimWindow 20 (msgs ++ [⟨Role.user, promptWithLang "English" q⟩, continuationSeed]) ∧
        ∃ t, msgs ++ [⟨Role.user, promptWithLang "English" q⟩, continuationSeed]
               = t ++ windowBeforeCall 20 msgs "English" q) :=
  ⟨⟨by decide, by decide⟩,
    groq_window_bound true 20 (by decide) initState "English" [("hi", ⟨"reply", 1⟩)] (by decide)⟩

/-- Claim C4: the cleanup step applied to exactly `\x7b'translated':'Hello'\x7d`
yields `Hello`, and a stubbed provider reply of `\x7b'translated':'Hello'\x7d\x7d`
makes `_translate` of one source text return exactly `["Hello"]`. -/
theorem groq_round_trip :
    cleanupReply "\x7b\x27translated\x27:\x27Hello\x27\x7d" = "Hello" ∧
    ∀ (r : Bool) (N t : Nat),
      (translate r N initState "English"
        [("こんにちは", ⟨"\x7b\x27translated\x27:\x27Hello\x27\x7d\x7d", t⟩)]).2 = ["Hello"] := by
  have k2 : cleanupReply "\x7b\x27translated\x27:\x27Hello\x27\x7d\x7d" = "Hello" := by
    unfold cleanupReply
    rw [(by decide :
      pyReplace "\x7b\x27translated\x27:\x27Hello\x27\x7d\x7d" "\x7b\x27translated\x27:\x27" ""
        = "Hello\x27\x7d\x7d")]
    rw [(by decide : pyReplace "Hello\x27\x7d\x7d" "\x7d" "" = "Hello\x27")]
    rw [(by decide : pyReplace "Hello\x27" "\\\x27" "\x27" = "Hello\x27")]
    rw [(by decide : pyReplace "Hello\x27" "\\\"" "\"" = "Hello\x27")]
    decide
  refine ⟨?_, fun r N t => ?_⟩
  · unfold cleanupReply
    rw [(by decide :
      pyReplace "\x7b\x27translated\x27:\x27Hello\x27\x7d" "\x7b\x27translated\x27:\x27" ""
        = "Hello\x27\x7d")]
    rw [(by decide : pyReplace "Hello\x27\x7d" "\x7d" "" = "Hello\x27")]
    rw [(by decide : pyReplace "Hello\x27" "\\\x27" "\x27" = "Hello\x27")]
    rw [(by decide : pyReplace "Hello\x27" "\\\"" "\"" = "Hello\x27")]
    decide
  · rw [translate_snd_eq]
    simp only [List.map_cons, List.map_nil]
    rw [(by decide :
      pyStrip "\x7b\x27translated\x27:\x27Hello\x27\x7d\x7d"
        = "\x7b\x27translated\x27:\x27Hello\x27\x7d\x7d")]
    rw [k2]
    rw [(by decide : pyStrip "Hello" = "Hello")]

/-- Claim C5, counterexample: with retention enabled, the assistant entry
added by the call holds the whitespace-stripped reply, not the raw
provider reply — a reply with surrounding whitespace is stored stripped,
and no entry equal to the raw reply is in the window. -/
theorem groq_raw_reply_cx :
    (request_translation true 20 initState "English" "hi" ⟨" X ", 7⟩).1.messages.getLast?
      = some (Message.mk Role.assistant "X") ∧
    Message.mk Role.assistant " X "
      ∉ (request_translation true 20 initState "English" "hi" ⟨" X ", 7⟩).1.messages :=
  ⟨by decide, by decide⟩

/-- Claim C5, amended: with retention enabled, every successful call ends
with the continuation seed (the last entry of the pre-call window) removed
and exactly one assistant entry added in its place, whose content is the
provider reply after the leading/trailing-whitespace strip of line 157
(pre-cleanup). -/
theorem groq_retention_enabled (N : Nat) (s : GroqState) (l q : String)
    (resp : ProviderResponse) :
    ∃ w, windowBeforeCall N s.messages l q = w ++ [continuationSeed] ∧
      (request_translation true N s l q resp).1.messages
        = w ++ [Message.mk Role.assistant (pyStrip resp.content)] := by
  obtain ⟨w, hw⟩ :=
    trim_concat1 N (s.messages ++ [⟨Role.user, promptWithLang l q⟩]) continuationSeed
  have hassoc : s.messages ++ [(⟨Role.user, promptWithLang l q⟩ : Message), continuationSeed]
      = (s.messages ++ [⟨Role.user, promptWithLang l q⟩]) ++ [continuationSeed] := by
    simp
  have hw2 : windowBeforeCall N s.messages l q = w ++ [continuationSeed] := by
    unfold windowBeforeCall
    rw [hassoc]
    exact hw
  refine ⟨w, hw2, ?_⟩
  show postWindow true (windowBeforeCall N s.messages l q) (pyStrip resp.content) = _
  rw [hw2]
  unfold postWindow
  rw [if_pos rfl, List.dropLast_concat]

/-- Claim C6: from a fresh session, two successful calls with usage totals
A and B leave the lifetime counter at A + B and the last-call counter at B;
in general a completed call adds its usage to the lifetime counter, and a
failed call leaves both counters untouched. -/
theorem groq_token_accounting (r : Bool) (N A B : Nat) (l q1 q2 c1 c2 : String) :
    (request_translation r N (request_translation r N initState l q1 ⟨c1, A⟩).1
        l q2 ⟨c2, B⟩).1.token_count = A + B ∧
    (request_translation r N (request_translation r N initState l q1 ⟨c1, A⟩).1
        l q2 ⟨c2, B⟩).1.token_count_last = B ∧
    ∀ (s : GroqState) (q : String) (resp : ProviderResponse),
      (request_translation r N s l q resp).1.token_count
          = s.token_count + resp.total_tokens ∧
      (request_translation_failed N s l q).token_count = s.token_count ∧
      (request_translation_failed N s l q).token_count_last = s.token_count_last := by
  refine ⟨?_, rfl, fun s q resp => ⟨rfl, rfl, rfl⟩⟩
  show initState.token_count + A + B = A + B
  simp [initState]

/-- Claim C7: constructing a session with credential validation requested
and a missing (falsy) credential fails with the missing-credential error;
no usable state is produced (and construction performs no network
effect in this model). -/
theorem groq_missing_key (apiKey : Option String) (h : keyFalsy apiKey = true) :
    groqInit apiKey true = Except.error MISSING_KEY_MSG := by
  unfold groqInit
  rw [h]
  rfl

/-- Witness for C7 with the credential absent. -/
theorem groq_missing_key_witness :
    keyFalsy none = true ∧ groqInit none true = Except.error MISSING_KEY_MSG :=
  ⟨rfl, groq_missing_key none rfl⟩

/-- Claim C8, counterexample: with retention enabled and configured maximum
context 4, the second call's outbound window starts with the first call's
user prompt, not with the few-shot example pair — trimming has evicted the
pair, so the claim's "window begins with the fixed few-shot pair" fails. -/
theorem groq_outbound_cx :
    (outboundRequest 4 "m"
        (request_translation true 4 initState "English" "a"
          ⟨"\x7b\x27translated\x27:\x27A\x27\x7d", 1⟩).1
        "English" "b").messages[1]?
      = some (Message.mk Role.user (promptWithLang "English" "a")) ∧
    (outboundRequest 4 "m"
        (request_translation true 4 initState "English" "a"
          ⟨"\x7b\x27translated\x27:\x27A\x27\x7d", 1⟩).1
        "English" "b").messages[1]?
      ≠ some (Message.mk Role.user CHAT_SAMPLE_USER) :=
  ⟨by decide, by decide⟩

/-- Claim C8, amended: every outbound request is exactly one system message
— the template with the target language substituted for the placeholder,
and the only system-role entry — followed by the entire trimmed window;
the window begins with the fixed few-shot pair only while trimming has not
evicted it (in particular on a fresh session's first call when N ≥ 4). -/
theorem groq_outbound (N : Nat) (model l q : String) (s : GroqState)
    (hs : ∀ m ∈ s.messages, m.role ≠ Role.system) :
    (outboundRequest N model s l q).messages
      = Message.mk Role.system (pyReplace CHAT_SYSTEM_TEMPLATE "\x7bto_lang\x7d" l)
          :: windowBeforeCall N s.messages l q ∧
    (outboundRequest N model s l q).messages.countP
        (fun m => decide (m.role = Role.system)) = 1 ∧
    (s = initState → 4 ≤ N →
      windowBeforeCall N s.messages l q
        = initMessages ++ [Message.mk Role.user (promptWithLang l q), continuationSeed]) := by
  refine ⟨rfl, ?_, ?_⟩
  · show (Message.mk Role.system (pyReplace CHAT_SYSTEM_TEMPLATE "\x7bto_lang\x7d" l)
        :: windowBeforeCall N s.messages l q).countP
          (fun m => decide (m.role = Role.system)) = 1
    rw [List.countP_cons]
    have h0 : (windowBeforeCall N s.messages l q).countP
        (fun m => decide (m.role = Role.system)) = 0 :=
      List.countP_eq_zero.mpr (fun m hm => by
        have hr := windowBeforeCall_no_system N s.messages l q hs m hm
        simp [hr])
    rw [h0]
    simp
  · rintro rfl hN
    unfold windowBeforeCall trimWindow
    rw [if_neg (by
      simp only [initState, initMessages, List.length_append, List.length_cons,
        List.length_nil]
      omega)]
    rfl

/-- Witness for the amended C8 at a fresh session with N = 20. -/
theorem groq_outbound_witness :
    (∀ m ∈ initState.messages, m.role ≠ Role.system) ∧
    ((outboundRequest 20 "llama" initState "English" "hi").messages
        = Message.mk Role.system (pyReplace CHAT_SYSTEM_TEMPLATE "\x7bto_lang\x7d" "English")
            :: windowBeforeCall 20 initState.messages "English" "hi" ∧
      (outboundRequest 20 "llama" initState "English" "hi").messages.countP
          (fun m => decide (m.role = Role.system)) = 1 ∧
      (initState = initState → 4 ≤ 20 →
        windowBeforeCall 20 initState.messages "English" "hi"
          = initMessages
              ++ [Message.mk Role.user (promptWithLang "English" "hi"), continuationSeed])) :=
  ⟨by decide, groq_outbound 20 "llama" "English" "hi" initState (by decide)⟩

/-- Claim C9: the cleanup step is the identity on already-clean strings —
any string containing no brace and no single- or double-quote characters
(hence also not the seed prefix) is returned unchanged. -/
theorem groq_cleanup_idem (s : String)
    (h : ∀ c ∈ s.data, c ≠ '\x7b' ∧ c ≠ '\x7d' ∧ c ≠ '\x27' ∧ c ≠ '"') :
    cleanupReply s = s := by
  have h7b : ('\x7b' : Char) ∉ s.data := fun hc => ((h _ hc).1 rfl)
  have h7d : ('\x7d' : Char) ∉ s.data := fun hc => ((h _ hc).2.1 rfl)
  have h27 : ('\x27' : Char) ∉ s.data := fun hc => ((h _ hc).2.2.1 rfl)
  have h22 : ('"' : Char) ∉ s.data := fun hc => ((h _ hc).2.2.2 rfl)
  unfold cleanupReply
  rw [pyReplace_no_match ""
    (show ('\x7b' : Char) ∈ ("\x7b\x27translated\x27:\x27" : String).data by decide) h7b]
  rw [pyReplace_no_match ""
    (show ('\x7d' : Char) ∈ ("\x7d" : String).data by decide) h7d]
  rw [pyReplace_no_match "\x27"
    (show ('\x27' : Char) ∈ ("\\\x27" : String).data by decide) h27]
  rw [pyReplace_no_match "\""
    (show ('"' : Char) ∈ ("\\\"" : String).data by decide) h22]
  unfold pyStripChars
  rw [stripList_no_match (fun c hc => by
    obtain ⟨h1, h2, h3, _⟩ := h c hc
    simp [isSeedPunct, h1, h2, h3])]

/-- Witness for C9 on a concrete clean string. -/
theorem groq_cleanup_idem_witness :
    (∀ c ∈ ("Hello" : String).data,
        c ≠ '\x7b' ∧ c ≠ '\x7d' ∧ c ≠ '\x27' ∧ c ≠ '"') ∧
    cleanupReply "Hello" = "Hello" :=
  ⟨by decide, groq_cleanup_idem "Hello" (by decide)⟩

/-- Claim C10: when the network call raises, the exception leaves the token
counters untouched, but the window mutation of lines 131-137 is not rolled
back — the appended user prompt and the continuation seed are the last two
window entries and persist into any subsequent request. -/
theorem groq_failed_call (N : Nat) (hN : 2 ≤ N) (s : GroqState) (l q : String) :
    (request_translation_failed N s l q).token_count = s.token_count ∧
    (request_translation_failed N s l q).token_count_last = s.token_count_last ∧
    ∃ w, (request_translation_failed N s l q).messages
          = w ++ [Message.mk Role.user (promptWithLang l q), continuationSeed] := by
  refine ⟨rfl, rfl, ?_⟩
  show ∃ w, windowBeforeCall N s.messages l q
      = w ++ [Message.mk Role.user (promptWithLang l q), continuationSeed]
  unfold windowBeforeCall
  exact trim_concat2 N hN s.messages _ continuationSeed

/-- Witness for C10 at a concrete session and N = 20. -/
theorem groq_failed_call_witness :
    2 ≤ 20 ∧
    ((request_translation_failed 20 initState "English" "hi").token_count
        = initState.token_count ∧
      (request_translation_failed 20 initState "English" "hi").token_count_last
        = initState.token_count_last ∧
      ∃ w, (request_translation_failed 20 initState "English" "hi").messages
            = w ++ [Message.mk Role.user (promptWithLang "English" "hi"), continuationSeed]) :=
  ⟨by decide, groq_failed_call 20 (by decide) initState "English" "hi"⟩

end Groq
